import Mathlib

/-!
Budget tracker core: shallow embedding and verification.

This file embeds the pure core of the budget-tracker web application
(`src/app.js`): the ledger data model, the schema migration of `loadData`,
the projection engine (`calculateSegmentSpending`, `getCategoryBreakdown`),
the reconciliation unit (`mergeData`), and the sync codec
(`getFilteredDataForSync` / `exportToURLHash` / `importFromURLHash`).

Modelling conventions:
* JavaScript numbers (amounts, budget knobs, millisecond timestamps, ids)
  are modelled as exact rationals `ℚ`; the source performs only +, -, *, /,
  comparisons, `Math.max` and `Math.min` on them.
* A transaction's optional `type` field (absent in the oldest schema) is an
  `Option TxType`; `typeof x === 'number'`-style checks are pattern matches.
* The browser builtins used by the sync codec (`JSON.stringify`/`JSON.parse`,
  `encodeURIComponent`/`decodeURIComponent`, `btoa`/`atob`) are not code of
  this repository; each pair is modelled as an abstract reversible stage
  (`Codec`), with encoding total and decoding partial (a thrown exception is
  `none`).  Everything the repository itself computes around them is embedded
  concretely.
* `mergeData` mutates: it writes the merged result into the module-global
  `data` object, and its migration `map` sets `exp.type = 'expense'` on the
  appended imported transaction objects themselves.  The embedding returns
  both post-states explicitly (see `mergeData`).
-/

/-- The three budget segments (`'daily' | 'bills' | 'specials'`). -/
inductive Segment where
  | daily
  | bills
  | specials
deriving DecidableEq, Repr

/-- Transaction type tag (`'expense' | 'income'`). -/
inductive TxType where
  | expense
  | income
deriving DecidableEq, Repr

/-- A ledger transaction, as created by `addExpense` / `saveLabelExpense`:
`{ id, amount, segment, category, label, date, type }`.  The `type` field is
optional because the oldest schema lacked it (see the migration in
`loadData`, src/app.js lines 54-62). -/
structure Transaction where
  id : ℚ
  amount : ℚ
  segment : Segment
  category : String
  label : String
  date : ℚ
  type : Option TxType
deriving DecidableEq, Repr

/-- The ledger (the module-global `data` object of src/app.js lines 37-42):
three budget knobs and the transaction list. -/
structure Ledger where
  bills : ℚ
  specials : ℚ
  daily : ℚ
  expenses : List Transaction
deriving DecidableEq, Repr

/-- Migration of one transaction: `if (!exp.type) { exp.type = 'expense'; }`
(src/app.js lines 56-61, repeated at lines 582-588 and 615-620). -/
def migrateTransaction (e : Transaction) : Transaction :=
  if e.type = none then { e with type := some TxType.expense } else e

/-- Migration of a loaded ledger:
`data.expenses = data.expenses.map(exp => { if (!exp.type) ... })`
(src/app.js lines 55-62). -/
def migrate (d : Ledger) : Ledger :=
  { d with expenses := d.expenses.map migrateTransaction }

/-- Models `const multiplier = exp.type === 'income' ? -1 : 1` (src/app.js
lines 311, 319, 338, 380). -/
def multiplier (e : Transaction) : ℚ :=
  if e.type = some TxType.income then -1 else 1

/-- Models `reduce((sum, exp) => sum + exp.amount * multiplier, 0)` — the signed
running total used by every segment (src/app.js lines 310-313). -/
def signedSum (l : List Transaction) : ℚ :=
  l.foldl (fun sum e => sum + e.amount * multiplier e) 0

/-- Models `Math.min(...dates)` over a nonempty list of dates; `0` on the empty
list (the source only ever applies it to a nonempty list,
src/app.js line 341). -/
def listMinQ : List ℚ → ℚ
  | [] => 0
  | d :: ds => ds.foldl min d

/-- Models `calculateSegmentSpending(segment)` (src/app.js lines 303-354), with the
module-global `data` and `Date.now()` passed explicitly.
* empty segment: `return 0` (line 306);
* bills: lifetime signed sum (lines 309-314);
* specials: lifetime signed sum divided by 12 (lines 317-325);
* daily: 30-day window; budget `* 30` estimate when the window is empty;
  otherwise blend `budget * (30 - daysOfData) + actualTotal` for
  `daysOfData < 30` and the raw `actualTotal` from 30 days of data on
  (lines 327-353). -/
def calculateSegmentSpending (data : Ledger) (now : ℚ) (segment : Segment) : ℚ :=
  let segmentExpenses := data.expenses.filter fun e => decide (e.segment = segment)
  if segmentExpenses.isEmpty then 0
  else
    match segment with
    | Segment.bills => signedSum segmentExpenses
    | Segment.specials => signedSum segmentExpenses / 12
    | Segment.daily =>
      let thirtyDaysAgo := now - 30 * 24 * 60 * 60 * 1000
      let recentExpenses := segmentExpenses.filter fun e => decide (thirtyDaysAgo ≤ e.date)
      if recentExpenses.isEmpty then data.daily * 30
      else
        let actualTotal := signedSum recentExpenses
        let oldestExpense := listMinQ (recentExpenses.map fun e => e.date)
        let daysOfData := max 1 ((now - oldestExpense) / (24 * 60 * 60 * 1000))
        if 30 ≤ daysOfData then actualTotal
        else data.daily * (30 - daysOfData) + actualTotal

/-- One entry of `getCategoryBreakdown`'s result:
`{ category, amount, percentage }` (src/app.js lines 387-391). -/
structure BreakdownEntry where
  category : String
  amount : ℚ
  percentage : ℚ
deriving DecidableEq, Repr

/-- The fixed category accumulator object, in insertion order
(src/app.js lines 369-375). -/
def categoriesInit : List (String × ℚ) :=
  [("In Food", 0), ("Out Food", 0), ("Shopping", 0), ("Entertainment", 0), ("Others", 0)]

/-- Models `if (categories.hasOwnProperty(exp.category)) categories[exp.category] += a`:
add `a` at key `c` when present, leave the accumulator unchanged otherwise
(src/app.js lines 377-383). -/
def bump (st : List (String × ℚ)) (c : String) (a : ℚ) : List (String × ℚ) :=
  st.map fun p => if p.1 = c then (p.1, p.2 + a) else p

/-- The daily transactions of the trailing 30-day window
(src/app.js lines 363-367). -/
def dailyWindow (data : Ledger) (now : ℚ) : List Transaction :=
  data.expenses.filter fun e =>
    decide (e.segment = Segment.daily) && decide (now - 30 * 24 * 60 * 60 * 1000 ≤ e.date)

/-- The accumulation loop of `getCategoryBreakdown`
(src/app.js lines 377-383). -/
def accumulateCats (l : List Transaction) : List (String × ℚ) :=
  l.foldl (fun st e => bump st e.category (e.amount * multiplier e)) categoriesInit

/-- Models `getCategoryBreakdown()` (src/app.js lines 362-392): accumulate signed
amounts per fixed category over the 30-day daily window, derive each
category's percentage of the summed total (`0` when the total is not
positive), and keep only entries with strictly positive percentage. -/
def getCategoryBreakdown (data : Ledger) (now : ℚ) : List BreakdownEntry :=
  let categories := accumulateCats (dailyWindow data now)
  let total := categories.foldl (fun sum p => sum + p.2) 0
  (categories.map fun p =>
    { category := p.1, amount := p.2
      percentage := if 0 < total then p.2 / total * 100 else 0 }).filter
    fun item => decide (0 < item.percentage)

/-- Models `getFilteredDataForSync()` (src/app.js lines 501-524): bills and specials
transactions pass unfiltered, daily transactions are restricted to the
trailing 30 days. -/
def getFilteredDataForSync (data : Ledger) (now : ℚ) : Ledger :=
  let thirtyDaysAgo := now - 30 * 24 * 60 * 60 * 1000
  let filteredExpenses := data.expenses.filter fun e =>
    if e.segment = Segment.bills ∨ e.segment = Segment.specials then true
    else if e.segment = Segment.daily then decide (thirtyDaysAgo ≤ e.date)
    else false
  { bills := data.bills, specials := data.specials, daily := data.daily
    expenses := filteredExpenses }

/-- Models `mergeData(importedData)` (src/app.js lines 604-628).  The source
mutates: it overwrites the knobs of the module-global `data`, appends the
non-duplicate imported transactions (migrated in place: the `map` at lines
615-620 sets `exp.type = 'expense'` on the shared transaction objects of
`importedData.expenses`), and re-sorts `data.expenses` by date descending
(stable `Array.prototype.sort`, modelled by the stable `List.mergeSort`).
The embedding returns both post-states: the first component is the
post-state of the local `data` object, the second the post-state of the
`importedData` object (observable through its transaction objects). -/
def mergeData (data importedData : Ledger) : Ledger × Ledger :=
  let existingIds := data.expenses.map fun e => e.id
  let newExpenses := importedData.expenses.filter fun e => !decide (e.id ∈ existingIds)
  let migratedNew := newExpenses.map migrateTransaction
  ({ bills := importedData.bills, specials := importedData.specials
     daily := importedData.daily
     expenses := (data.expenses ++ migratedNew).mergeSort fun a b => decide (b.date ≤ a.date) },
   { importedData with
     expenses := importedData.expenses.map fun e =>
       if !decide (e.id ∈ existingIds) then migrateTransaction e else e })

/-! ## Sync codec (src/app.js lines 500-602)

The token pipeline is
`btoa(encodeURIComponent(JSON.stringify(filteredLedger)))` on export and
`JSON.parse(decodeURIComponent(atob(hash)))` plus the shape-validation gate
on import.  The three builtin stages are modelled abstractly as reversible
`Codec`s; the JSON value they carry, the serialization of the ledger into
it, and the validation gate are embedded concretely. -/

/-- The JSON values `JSON.stringify` / `JSON.parse` exchange.  Object
fields are kept in insertion order, as JavaScript does. -/
inductive Json where
  | null : Json
  | bool : Bool → Json
  | num : ℚ → Json
  | str : String → Json
  | arr : List Json → Json
  | obj : List (String × Json) → Json

/-- Property access `j[k]`: the value at key `k` of a JSON object,
`none` (JavaScript `undefined`) otherwise. -/
def Json.getField : Json → String → Option Json
  | Json.obj fs, k => (fs.find? fun p => p.1 = k).map fun p => p.2
  | _, _ => none

/-- Segment tag as serialized (`'daily' | 'bills' | 'specials'`). -/
def segString : Segment → String
  | Segment.daily => "daily"
  | Segment.bills => "bills"
  | Segment.specials => "specials"

def segFromString (s : String) : Option Segment :=
  if s = "daily" then some Segment.daily
  else if s = "bills" then some Segment.bills
  else if s = "specials" then some Segment.specials
  else none

/-- Type tag as serialized (`'expense' | 'income'`). -/
def typeString : TxType → String
  | TxType.expense => "expense"
  | TxType.income => "income"

/-- Serialization of one transaction object; a missing `type` field is
omitted, exactly as `JSON.stringify` omits an absent property. -/
def txToJson (e : Transaction) : Json :=
  Json.obj
    ([("id", Json.num e.id), ("amount", Json.num e.amount),
      ("segment", Json.str (segString e.segment)),
      ("category", Json.str e.category), ("label", Json.str e.label),
      ("date", Json.num e.date)] ++
     (match e.type with
      | none => []
      | some t => [("type", Json.str (typeString t))]))

/-- Reading one transaction object back.  The source never validates the
elements of `expenses` (the gate at lines 561-564 checks only that it is an
array); the embedding types them, restricting attention to element objects
of the transaction shape — which covers every token the exporter
produces. -/
def txFromJson (j : Json) : Option Transaction :=
  match j.getField "id", j.getField "amount", j.getField "segment",
        j.getField "category", j.getField "label", j.getField "date" with
  | some (Json.num id), some (Json.num amount), some (Json.str seg),
    some (Json.str category), some (Json.str label), some (Json.num date) =>
    match segFromString seg with
    | none => none
    | some segment =>
      match j.getField "type" with
      | none => some ⟨id, amount, segment, category, label, date, none⟩
      | some (Json.str t) =>
        if t = "expense" then some ⟨id, amount, segment, category, label, date, some TxType.expense⟩
        else if t = "income" then some ⟨id, amount, segment, category, label, date, some TxType.income⟩
        else none
      | some _ => none
  | _, _, _, _, _, _ => none

/-- Serialization of the (filtered) ledger:
`{bills, specials, daily, expenses}` (src/app.js lines 518-523). -/
def ledgerToJson (d : Ledger) : Json :=
  Json.obj
    [("bills", Json.num d.bills), ("specials", Json.num d.specials),
     ("daily", Json.num d.daily),
     ("expenses", Json.arr (d.expenses.map txToJson))]

/-- The shape view behind the validation gate of `importFromURLHash`
(src/app.js lines 561-564): `bills`, `specials`, `daily` must be numbers
and `expenses` an array. -/
def syncShape (j : Json) : Option (ℚ × ℚ × ℚ × List Json) :=
  match j.getField "bills", j.getField "specials", j.getField "daily",
        j.getField "expenses" with
  | some (Json.num b), some (Json.num s), some (Json.num d), some (Json.arr es) =>
    some (b, s, d, es)
  | _, _, _, _ => none

/-- Models `typeof importedData.bills === 'number' && ... && Array.isArray(importedData.expenses)`
(src/app.js lines 561-564). -/
def validateShape (j : Json) : Bool :=
  (syncShape j).isSome

/-- The parsed JSON value as a typed ledger: the validation gate followed
by the element typing of `txFromJson`. -/
def jsonToLedger (j : Json) : Option Ledger :=
  match syncShape j with
  | none => none
  | some (b, s, d, es) =>
    (es.mapM txFromJson).map fun txs =>
      { bills := b, specials := s, daily := d, expenses := txs }

/-- An abstract reversible transport stage, modelling one of the browser
builtin pairs `JSON.stringify`/`JSON.parse`,
`encodeURIComponent`/`decodeURIComponent`, `btoa`/`atob`: encoding is
total, decoding fails (`none` models a thrown exception) on inputs outside
the encoder's range, and decoding an encoded value gives it back. -/
structure Codec (α β : Type) where
  enc : α → β
  dec : β → Option α
  dec_enc : ∀ a, dec (enc a) = some a

/-- The identity instantiation of a transport stage (used to exercise the
codec theorems on concrete inputs). -/
def idCodec (α : Type) : Codec α α :=
  ⟨fun a => a, fun a => some a, fun _ => rfl⟩

/-- Models `exportToURLHash`'s token construction
`btoa(encodeURIComponent(JSON.stringify(getFilteredDataForSync())))`
(src/app.js lines 526-529). -/
def encodeSyncToken {σ τ ω : Type} (jsonC : Codec Json σ) (uriC : Codec σ τ)
    (b64C : Codec τ ω) (data : Ledger) (now : ℚ) : ω :=
  b64C.enc (uriC.enc (jsonC.enc (ledgerToJson (getFilteredDataForSync data now))))

/-- The decode pipeline of `importFromURLHash`:
`JSON.parse(decodeURIComponent(atob(hash)))` followed by the validation
gate (src/app.js lines 557-564). -/
def decodeSyncToken {σ τ ω : Type} (jsonC : Codec Json σ) (uriC : Codec σ τ)
    (b64C : Codec τ ω) (w : ω) : Option Ledger :=
  (((b64C.dec w).bind fun s => uriC.dec s).bind fun t => jsonC.dec t).bind
    fun j => jsonToLedger j

/-- Outcome of `importFromURLHash` (src/app.js lines 552-602): `false` with
no hash present, `false` after a decode/validation failure (the `catch`
and the failed gate), `false` when the user declines the merge, `true`
after a merge or a wholesale replace. -/
inductive ImportOutcome where
  | noHash
  | importFailed
  | skipped
  | merged
  | replaced
deriving DecidableEq, Repr

/-- Models `importFromURLHash()` (src/app.js lines 552-602), with the hash, the
module-global `data`, and the user's `confirm` answer passed explicitly.
On any decode or validation failure the local ledger is returned untouched.
With local data present the user chooses merge or skip; with no local data
the imported ledger replaces it wholesale (migrated, lines 580-589). -/
def importFromURLHash {σ τ ω : Type} (jsonC : Codec Json σ) (uriC : Codec σ τ)
    (b64C : Codec τ ω) (hash : Option ω) (data : Ledger) (confirmMerge : Bool) :
    Ledger × ImportOutcome :=
  match hash with
  | none => (data, ImportOutcome.noHash)
  | some w =>
    match decodeSyncToken jsonC uriC b64C w with
    | none => (data, ImportOutcome.importFailed)
    | some importedData =>
      if 0 < data.expenses.length then
        if confirmMerge then ((mergeData data importedData).1, ImportOutcome.merged)
        else (data, ImportOutcome.skipped)
      else (migrate importedData, ImportOutcome.replaced)

/-! ## Spec-side reformulations

Definitions written from the specification's wording, to be compared with
the source-derived definitions above. -/

/-- The spec's `actualTotal`: the signed sum over the daily transactions of
the trailing 30-day window. -/
def windowActualTotal (L : Ledger) (now : ℚ) : ℚ :=
  ((dailyWindow L now).map fun e => e.amount * multiplier e).sum

/-- The spec's `daysOfData`:
`max(1, (now - min(date in window)) / 1 day)`. -/
def windowDaysOfData (L : Ledger) (now : ℚ) : ℚ :=
  max 1 ((now - listMinQ ((dailyWindow L now).map fun e => e.date)) / (24 * 60 * 60 * 1000))

/-- The signed amount accumulated for one fixed category over a transaction
list (the spec's "category's accumulated amount"). -/
def catSum (c : String) (l : List Transaction) : ℚ :=
  ((l.filter fun e => decide (e.category = c)).map fun e => e.amount * multiplier e).sum

/-! ## General lemmas about the embedded operations -/

/-- A left fold that only accumulates `f` of each element is the sum of the
mapped list (relates the source's `reduce((s, x) => s + f(x), a)` to
`List.sum`). -/
theorem foldl_add_eq_sum {α : Type} (f : α → ℚ) (l : List α) : ∀ a : ℚ,
    l.foldl (fun s x => s + f x) a = a + (l.map f).sum := by
  induction l with
  | nil => intro a; simp
  | cons x xs ih =>
    intro a
    rw [List.foldl_cons, ih]
    simp [List.sum_cons, add_assoc]

/-- Restates `signedSum` as a sum over the mapped signed amounts. -/
theorem signedSum_eq_sum_map (l : List Transaction) :
    signedSum l = (l.map fun e => e.amount * multiplier e).sum :=
  (foldl_add_eq_sum (fun e => e.amount * multiplier e) l 0).trans (zero_add _)

/-- Migrating one transaction twice is the same as migrating it once. -/
theorem migrateTransaction_migrateTransaction (e : Transaction) :
    migrateTransaction (migrateTransaction e) = migrateTransaction e := by
  unfold migrateTransaction
  rcases h : e.type with _ | t <;> simp [h]

/-- Migration does not touch a transaction that already has a `type`. -/
theorem migrateTransaction_of_type_ne_none {e : Transaction} (h : e.type ≠ none) :
    migrateTransaction e = e := by
  unfold migrateTransaction
  simp [h]

/-! ## C8: migration is idempotent -/

/-- C8: for every ledger `L`, migration is idempotent:
`migrate (migrate L) = migrate L`, where `migrate` assigns
`type = expense` to every transaction missing a `type` field and changes
nothing else. -/
theorem migrate_idempotent (L : Ledger) : migrate (migrate L) = migrate L := by
  unfold migrate
  simp only [List.map_map]
  congr 1
  exact List.map_congr_left fun e _ => migrateTransaction_migrateTransaction e

/-! ## C9: merging a ledger with itself keeps the transaction count -/

/-- C9: for every ledger `L`, `mergeData L L` (importing identical data)
leaves the transaction count unchanged. -/
theorem mergeData_self_count (L : Ledger) :
    (mergeData L L).1.expenses.length = L.expenses.length := by
  have hfil : L.expenses.filter (fun e => !decide (e.id ∈ L.expenses.map fun e => e.id)) = [] := by
    rw [List.filter_eq_nil_iff]
    intro a ha
    simp [List.mem_map_of_mem (fun e : Transaction => e.id) ha]
  simp only [mergeData, hfil, List.map_nil, List.append_nil]
  exact (List.mergeSort_perm L.expenses _).length_eq

/-! ## C6: characterisation of the merged ledger -/

/-- The date-descending comparator of `mergeData`'s sort is transitive. -/
theorem dateDesc_trans (a b c : Transaction) :
    decide (b.date ≤ a.date) = true → decide (c.date ≤ b.date) = true →
      decide (c.date ≤ a.date) = true := by
  intro h1 h2
  exact decide_eq_true (le_trans (of_decide_eq_true h2) (of_decide_eq_true h1))

/-- The date-descending comparator of `mergeData`'s sort is total. -/
theorem dateDesc_total (a b : Transaction) :
    (decide (b.date ≤ a.date) || decide (a.date ≤ b.date)) = true := by
  rcases le_total b.date a.date with h | h <;> simp [h]

/-- C6: `mergeData local imported` takes the imported budget knobs, its
transaction list is a permutation of the local transactions plus exactly
the imported transactions whose id does not occur locally (those appended
transactions migrated), and the result is sorted by date descending. -/
theorem mergeData_characterisation (l i : Ledger) :
    (mergeData l i).1.bills = i.bills ∧ (mergeData l i).1.specials = i.specials ∧
    (mergeData l i).1.daily = i.daily ∧
    ((mergeData l i).1.expenses).Perm
      (l.expenses ++
        ((i.expenses.filter fun e => !decide (e.id ∈ l.expenses.map fun x => x.id)).map
          migrateTransaction)) ∧
    ((mergeData l i).1.expenses).Pairwise fun a b => b.date ≤ a.date := by
  refine ⟨rfl, rfl, rfl, ?_, ?_⟩
  · exact List.mergeSort_perm _ _
  · have hs := @List.sorted_mergeSort Transaction (fun a b => decide (b.date ≤ a.date))
      dateDesc_trans dateDesc_total
      (l.expenses ++
        ((i.expenses.filter fun e => !decide (e.id ∈ l.expenses.map fun x => x.id)).map
          migrateTransaction))
    exact hs.imp fun h => of_decide_eq_true h

/-! ## C3: merge and mutation of its inputs -/

/-- C3 counterexample: `mergeData` does not leave the imported ledger's
transaction objects unchanged.  Appending the imported transaction of id 2
(which carries no `type` field) migrates it in place, so the post-state of
the imported ledger differs from the imported ledger that was passed in. -/
theorem mergeData_mutates_imported :
    (mergeData ⟨0, 0, 0, [⟨1, 5, Segment.bills, "b", "b", 100, some TxType.expense⟩]⟩
        ⟨1, 2, 3, [⟨2, 7, Segment.bills, "c", "c", 50, none⟩]⟩).2 ≠
      ⟨1, 2, 3, [⟨2, 7, Segment.bills, "c", "c", 50, none⟩]⟩ := by
  intro h
  have h2 := congrArg (fun L => L.expenses.map fun e => e.type) h
  norm_num [mergeData, migrateTransaction] at h2
  exact Option.noConfusion h2

/-- C3 amended: the post-state of the imported ledger coincides with the
imported ledger whenever every imported transaction already carries a
`type` field; a type-less appended transaction, by contrast, is migrated
in place (see the counterexample), and the merge result is written into
the local ledger object rather than returned as a fresh value. -/
theorem mergeData_imported_unchanged (l i : Ledger)
    (h : ∀ e ∈ i.expenses, e.type ≠ none) : (mergeData l i).2 = i := by
  unfold mergeData
  have hmap : (i.expenses.map fun e =>
      if !decide (e.id ∈ l.expenses.map fun x => x.id) then migrateTransaction e else e) =
      i.expenses := by
    rw [List.map_congr_left (g := fun e => e)
      (fun e he => by
        by_cases hm : e.id ∈ l.expenses.map fun x => x.id
        · simp [hm]
        · simp [hm, migrateTransaction_of_type_ne_none (h e he)])]
    exact List.map_id' i.expenses
  simp only [hmap]

/-- Witness for the amended C3 theorem at a concrete pair of ledgers whose
imported transactions all carry a `type`. -/
theorem mergeData_imported_unchanged_witness :
    (mergeData ⟨0, 0, 0, []⟩
        ⟨1, 2, 3, [⟨2, 7, Segment.bills, "c", "c", 50, some TxType.expense⟩]⟩).2 =
      ⟨1, 2, 3, [⟨2, 7, Segment.bills, "c", "c", 50, some TxType.expense⟩]⟩ :=
  mergeData_imported_unchanged _ _ (by simp)

/-! ## C1: daily segment total with an empty 30-day window -/

/-- C1 counterexample: a ledger with no daily transactions at all (daily
budget knob 10) satisfies the claim's hypothesis vacuously, yet
`calculateSegmentSpending` returns `0` (the early return of src/app.js
line 306), not `dailyBudgetKnob * 30 = 300`. -/
theorem calculateSegmentSpending_no_daily_transactions :
    calculateSegmentSpending ⟨0, 0, 10, []⟩ 0 Segment.daily = 0 ∧ (0 : ℚ) ≠ 10 * 30 := by
  constructor
  · rfl
  · norm_num

/-- C1 amended: for every ledger with at least one daily-segment
transaction but none dated inside the trailing 30-day window, the daily
segment total is `dailyBudgetKnob * 30`.  (With no daily transaction at
all the early return yields `0` instead — see the counterexample.) -/
theorem calculateSegmentSpending_daily_stale (L : Ledger) (now : ℚ)
    (hne : ∃ e ∈ L.expenses, e.segment = Segment.daily)
    (hstale : ∀ e ∈ L.expenses, e.segment = Segment.daily →
      e.date < now - 30 * 24 * 60 * 60 * 1000) :
    calculateSegmentSpending L now Segment.daily = L.daily * 30 := by
  obtain ⟨e0, he0, hseg⟩ := hne
  have hSE : (L.expenses.filter fun e => decide (e.segment = Segment.daily)) ≠ [] :=
    List.ne_nil_of_mem (List.mem_filter.2 ⟨he0, decide_eq_true hseg⟩)
  have hrec : (L.expenses.filter fun e => decide (e.segment = Segment.daily)).filter
      (fun e => decide (now - 30 * 24 * 60 * 60 * 1000 ≤ e.date)) = [] := by
    rw [List.filter_eq_nil_iff]
    intro a ha
    have ha1 := List.mem_filter.1 ha
    have haseg : a.segment = Segment.daily := of_decide_eq_true ha1.2
    simp [not_le.2 (hstale a ha1.1 haseg)]
  simp only [calculateSegmentSpending, hrec, List.isEmpty_iff, List.isEmpty_nil, if_true]
  simp [hSE]

/-- Witness for the amended C1 theorem: one stale daily transaction (dated
at 0, more than 30 days before `now`), daily budget knob 10. -/
theorem calculateSegmentSpending_daily_stale_witness :
    calculateSegmentSpending
        ⟨0, 0, 10, [⟨1, 5, Segment.daily, "Others", "Others", 0, some TxType.expense⟩]⟩
        2600000000 Segment.daily = 10 * 30 :=
  calculateSegmentSpending_daily_stale _ _
    ⟨⟨1, 5, Segment.daily, "Others", "Others", 0, some TxType.expense⟩, by simp, rfl⟩
    (by
      intro e he hseg
      rw [List.mem_singleton] at he
      subst he
      norm_num)

/-! ## C5: the daily blend formula on a nonempty window -/

/-- The two-stage daily filter of `calculateSegmentSpending` is the 30-day
daily window. -/
theorem filter_filter_dailyWindow (L : Ledger) (now : ℚ) :
    (L.expenses.filter fun e => decide (e.segment = Segment.daily)).filter
      (fun e => decide (now - 30 * 24 * 60 * 60 * 1000 ≤ e.date)) = dailyWindow L now := by
  rw [List.filter_filter]
  exact List.filter_congr fun a _ => Bool.and_comm _ _

/-- Restates `calculateSegmentSpending` on the daily segment, in terms of the
spec-side window quantities, stated with the source's branch order. -/
theorem calc_daily_eq (L : Ledger) (now : ℚ) (h : dailyWindow L now ≠ []) :
    calculateSegmentSpending L now Segment.daily =
      if 30 ≤ windowDaysOfData L now then windowActualTotal L now
      else L.daily * (30 - windowDaysOfData L now) + windowActualTotal L now := by
  obtain ⟨e0, he0⟩ := List.exists_mem_of_ne_nil _ h
  have he0m := List.mem_filter.1 he0
  have hseg : decide (e0.segment = Segment.daily) = true := by
    have h2 := he0m.2
    rw [Bool.and_eq_true] at h2
    exact h2.1
  have hSE : (L.expenses.filter fun e => decide (e.segment = Segment.daily)) ≠ [] :=
    List.ne_nil_of_mem (List.mem_filter.2 ⟨he0m.1, hseg⟩)
  simp only [calculateSegmentSpending, filter_filter_dailyWindow, List.isEmpty_iff]
  rw [if_neg hSE, if_neg h]
  unfold windowDaysOfData windowActualTotal
  rw [signedSum_eq_sum_map]

/-- C5: for every ledger with at least one daily transaction in the 30-day
window, with `daysOfData = max(1, (now - oldest in-window date) / 1 day)`:
if `daysOfData < 30` the daily segment total is
`dailyBudgetKnob * (30 - daysOfData) + actualTotal` (the signed in-window
sum), and from `daysOfData ≥ 30` on it is `actualTotal` alone. -/
theorem calculateSegmentSpending_daily_blend (L : Ledger) (now : ℚ)
    (h : dailyWindow L now ≠ []) :
    calculateSegmentSpending L now Segment.daily =
      if windowDaysOfData L now < 30 then
        L.daily * (30 - windowDaysOfData L now) + windowActualTotal L now
      else windowActualTotal L now := by
  rw [calc_daily_eq L now h]
  rcases le_or_lt 30 (windowDaysOfData L now) with h30 | h30
  · rw [if_pos h30, if_neg (not_lt.2 h30)]
  · rw [if_neg (not_le.2 h30), if_pos h30]

/-- Witness for C5, reproducing the spec's scenario: daily budget 10, one
expense of 15 dated exactly 10 days before `now` — `daysOfData = 10` and
the blend gives `10 * (30 - 10) + 15 = 215`. -/
theorem calculateSegmentSpending_daily_blend_witness :
    calculateSegmentSpending
        ⟨0, 0, 10, [⟨1, 15, Segment.daily, "Others", "Others", 1728000000, some TxType.expense⟩]⟩
        2592000000 Segment.daily = 215 := by
  have hwin : dailyWindow
      ⟨0, 0, 10, [⟨1, 15, Segment.daily, "Others", "Others", 1728000000, some TxType.expense⟩]⟩
      2592000000 =
      [⟨1, 15, Segment.daily, "Others", "Others", 1728000000, some TxType.expense⟩] := by
    norm_num [dailyWindow]
  rw [calculateSegmentSpending_daily_blend _ _ (by rw [hwin]; exact List.cons_ne_nil _ _)]
  rw [windowDaysOfData, windowActualTotal, hwin]
  norm_num [listMinQ, multiplier]
  rw [if_neg (fun hh => TxType.noConfusion hh)]
  norm_num

/-! ## C4 and C10: the category breakdown -/

/-- The signed accumulated amount of a category, one transaction at a
time. -/
theorem catSum_cons (c : String) (e : Transaction) (es : List Transaction) :
    catSum c (e :: es) =
      (if e.category = c then e.amount * multiplier e else 0) + catSum c es := by
  rw [catSum, List.filter_cons]
  by_cases hc : e.category = c
  · rw [if_pos (decide_eq_true hc), if_pos hc, List.map_cons, List.sum_cons]
    rfl
  · rw [if_neg (by simpa using hc), if_neg hc, zero_add]
    rfl

/-- The accumulation loop adds, at each key of the accumulator, the signed
sum of the matching transactions (and touches no other key). -/
theorem foldl_bump_eq (l : List Transaction) : ∀ st : List (String × ℚ),
    l.foldl (fun st e => bump st e.category (e.amount * multiplier e)) st =
      st.map fun p => (p.1, p.2 + catSum p.1 l) := by
  induction l with
  | nil =>
    intro st
    simp [catSum]
  | cons e es ih =>
    intro st
    rw [List.foldl_cons, ih, bump, List.map_map]
    refine List.map_congr_left fun p _ => ?_
    simp only [Function.comp_apply, catSum_cons]
    by_cases hc : p.1 = e.category
    · rw [if_pos hc, if_pos hc.symm]
      simp [add_assoc]
    · rw [if_neg hc, if_neg (fun hh => hc hh.symm), zero_add]

/-- The accumulator after the loop: the five fixed categories, each with
its accumulated signed amount. -/
theorem accumulateCats_eq (l : List Transaction) :
    accumulateCats l =
      [("In Food", catSum "In Food" l), ("Out Food", catSum "Out Food" l),
       ("Shopping", catSum "Shopping" l), ("Entertainment", catSum "Entertainment" l),
       ("Others", catSum "Others" l)] := by
  rw [accumulateCats, foldl_bump_eq]
  simp [categoriesInit]

/-- Restates `getCategoryBreakdown` with its running total expressed as a list
sum. -/
theorem getCategoryBreakdown_eq (L : Ledger) (now : ℚ) :
    getCategoryBreakdown L now =
      ((accumulateCats (dailyWindow L now)).map fun p =>
        ({ category := p.1, amount := p.2,
           percentage :=
             if 0 < ((accumulateCats (dailyWindow L now)).map fun q => q.2).sum then
               p.2 / ((accumulateCats (dailyWindow L now)).map fun q => q.2).sum * 100
             else 0 } : BreakdownEntry)).filter
        fun item => decide (0 < item.percentage) := by
  simp only [getCategoryBreakdown, foldl_add_eq_sum, zero_add]

/-- Percentage filter bound over a plain amount list: with only nonnegative
amounts, the kept shares of a positive total sum to at most 100. -/
theorem pct_filter_sum_le (as : List ℚ) (T : ℚ) (hT : T = as.sum)
    (h : ∀ a ∈ as, 0 ≤ a) (hTpos : 0 < T) :
    ((as.filter fun a => decide (0 < a / T * 100)).map fun a => a / T * 100).sum ≤ 100 := by
  have h1 : (((as.filter fun a => decide (0 < a / T * 100)).map fun a => a / T * 100)).sum =
      ((as.filter fun a => decide (0 < a / T * 100)).map fun a => a * (100 / T)).sum :=
    congrArg List.sum (List.map_congr_left fun a _ => by rw [div_mul_eq_mul_div, mul_div_assoc])
  rw [h1, List.sum_map_mul_right _ (fun a => a) (100 / T), List.map_id']
  have hsub : (as.filter fun a => decide (0 < a / T * 100)).sum ≤ T := by
    rw [hT]
    exact List.Sublist.sum_le_sum (List.filter_sublist as) h
  calc (as.filter fun a => decide (0 < a / T * 100)).sum * (100 / T)
      ≤ T * (100 / T) :=
        mul_le_mul_of_nonneg_right hsub (le_of_lt (div_pos (by norm_num) hTpos))
    _ = 100 := by rw [mul_comm]; exact div_mul_cancel₀ 100 (ne_of_gt hTpos)

/-- C4 amended: every breakdown entry has a strictly positive percentage;
and whenever no category accumulates a negative signed amount, the
percentages sum to at most 100.  (With a negative category accumulation the
kept percentages can exceed 100 in total — see the counterexample.) -/
theorem getCategoryBreakdown_entries (L : Ledger) (now : ℚ) :
    (∀ item ∈ getCategoryBreakdown L now, 0 < item.percentage) ∧
    ((∀ p ∈ accumulateCats (dailyWindow L now), 0 ≤ p.2) →
      ((getCategoryBreakdown L now).map fun item => item.percentage).sum ≤ 100) := by
  constructor
  · intro item hitem
    rw [getCategoryBreakdown_eq] at hitem
    have h2 := List.of_mem_filter hitem
    exact of_decide_eq_true h2
  · intro h
    rw [getCategoryBreakdown_eq]
    set cats := accumulateCats (dailyWindow L now) with hcats
    set T := (cats.map fun q => q.2).sum with hT
    by_cases hTpos : 0 < T
    · simp only [if_pos hTpos]
      rw [List.filter_map, List.map_map]
      show ((cats.filter fun p : String × ℚ => decide (0 < p.2 / T * 100)).map
        fun p : String × ℚ => p.2 / T * 100).sum ≤ 100
      have hgoal : ((cats.map fun p : String × ℚ => p.2).filter
            (fun a => decide (0 < a / T * 100))).map (fun a => a / T * 100) =
          (cats.filter fun p : String × ℚ => decide (0 < p.2 / T * 100)).map
            fun p : String × ℚ => p.2 / T * 100 := by
        rw [List.filter_map, List.map_map]
        rfl
      rw [← hgoal]
      refine pct_filter_sum_le _ _ hT ?_ hTpos
      intro a ha
      obtain ⟨p, hp, rfl⟩ := List.mem_map.1 ha
      exact h p hp
    · simp only [if_neg hTpos]
      have hnil : ((cats.map fun p : String × ℚ =>
          ({ category := p.1, amount := p.2, percentage := 0 } : BreakdownEntry)).filter
          fun item => decide (0 < item.percentage)) = [] := by
        rw [List.filter_eq_nil_iff]
        intro item hitem
        obtain ⟨p, hp, rfl⟩ := List.mem_map.1 hitem
        simp
      rw [hnil]
      norm_num

/-- C4 counterexample: an in-window daily expense of 50 (In Food) together
with an in-window daily income of 20 (Shopping) makes the category total
30 while In Food alone accumulates 50, so the single kept entry carries
percentage 500/3 — the percentages sum to more than 100. -/
theorem getCategoryBreakdown_sum_gt_100 :
    (((getCategoryBreakdown
        ⟨0, 0, 0,
          [⟨1, 50, Segment.daily, "In Food", "In Food", 100, some TxType.expense⟩,
           ⟨2, 20, Segment.daily, "Shopping", "Shopping", 100, some TxType.income⟩]⟩ 1000).map
      fun item => item.percentage).sum) > 100 := by
  have hwin : dailyWindow
      ⟨0, 0, 0,
        [⟨1, 50, Segment.daily, "In Food", "In Food", 100, some TxType.expense⟩,
         ⟨2, 20, Segment.daily, "Shopping", "Shopping", 100, some TxType.income⟩]⟩ 1000 =
      [⟨1, 50, Segment.daily, "In Food", "In Food", 100, some TxType.expense⟩,
       ⟨2, 20, Segment.daily, "Shopping", "Shopping", 100, some TxType.income⟩] := by
    norm_num [dailyWindow]
  rw [getCategoryBreakdown_eq, accumulateCats_eq, hwin]
  simp [catSum, multiplier]
  norm_num

/-- Witness for the amended C4 theorem: two in-window daily expenses
(In Food 30, Out Food 20), no incomes, so no category accumulation is
negative and the kept percentages sum to at most 100. -/
theorem getCategoryBreakdown_entries_witness :
    ((getCategoryBreakdown
        ⟨0, 0, 0,
          [⟨1, 30, Segment.daily, "In Food", "In Food", 100, some TxType.expense⟩,
           ⟨2, 20, Segment.daily, "Out Food", "Out Food", 100, some TxType.expense⟩]⟩ 1000).map
      fun item => item.percentage).sum ≤ 100 :=
  (getCategoryBreakdown_entries _ _).2
    (by
      have hwin : dailyWindow
          ⟨0, 0, 0,
            [⟨1, 30, Segment.daily, "In Food", "In Food", 100, some TxType.expense⟩,
             ⟨2, 20, Segment.daily, "Out Food", "Out Food", 100, some TxType.expense⟩]⟩ 1000 =
          [⟨1, 30, Segment.daily, "In Food", "In Food", 100, some TxType.expense⟩,
           ⟨2, 20, Segment.daily, "Out Food", "Out Food", 100, some TxType.expense⟩] := by
        norm_num [dailyWindow]
      rw [accumulateCats_eq, hwin]
      intro p hp
      simp [catSum, multiplier] at hp
      rcases hp with hp | hp | hp | hp | hp <;> rw [hp] <;> norm_num)

/-- C10 amended: whenever the total accumulated over the five fixed
categories is zero or negative, the category breakdown is the empty list —
even when some individual category accumulation is strictly positive. -/
theorem getCategoryBreakdown_nonpos_total (L : Ledger) (now : ℚ)
    (h : ((accumulateCats (dailyWindow L now)).map fun p => p.2).sum ≤ 0) :
    getCategoryBreakdown L now = [] := by
  rw [getCategoryBreakdown_eq, List.filter_eq_nil_iff]
  intro item hitem
  obtain ⟨p, hp, rfl⟩ := List.mem_map.1 hitem
  simp [if_neg (not_lt.2 h)]

/-- C10 counterexample: an in-window daily expense of 50 (In Food) and an
in-window daily income of 100 in the unknown category "Foo" make the
signed total over all in-window daily transactions -50 ≤ 0, yet the
breakdown is nonempty (the accumulation loop silently ignores the unknown
category, so its total is 50 > 0 and In Food is kept with 100%). -/
theorem getCategoryBreakdown_nonempty_nonpos_window_total :
    windowActualTotal
        ⟨0, 0, 0,
          [⟨1, 50, Segment.daily, "In Food", "In Food", 100, some TxType.expense⟩,
           ⟨2, 100, Segment.daily, "Foo", "Foo", 100, some TxType.income⟩]⟩ 1000 ≤ 0 ∧
    getCategoryBreakdown
        ⟨0, 0, 0,
          [⟨1, 50, Segment.daily, "In Food", "In Food", 100, some TxType.expense⟩,
           ⟨2, 100, Segment.daily, "Foo", "Foo", 100, some TxType.income⟩]⟩ 1000 ≠ [] := by
  have hwin : dailyWindow
      ⟨0, 0, 0,
        [⟨1, 50, Segment.daily, "In Food", "In Food", 100, some TxType.expense⟩,
         ⟨2, 100, Segment.daily, "Foo", "Foo", 100, some TxType.income⟩]⟩ 1000 =
      [⟨1, 50, Segment.daily, "In Food", "In Food", 100, some TxType.expense⟩,
       ⟨2, 100, Segment.daily, "Foo", "Foo", 100, some TxType.income⟩] := by
    norm_num [dailyWindow]
  constructor
  · rw [windowActualTotal, hwin]
    simp [multiplier]
    norm_num
  · rw [getCategoryBreakdown_eq, accumulateCats_eq, hwin]
    simp [catSum, multiplier]

/-- Witness for the amended C10 theorem: In Food expense 50 and Shopping
income 60 give category total -10 ≤ 0, so the breakdown is empty although
In Food alone accumulates 50 > 0. -/
theorem getCategoryBreakdown_nonpos_total_witness :
    getCategoryBreakdown
        ⟨0, 0, 0,
          [⟨1, 50, Segment.daily, "In Food", "In Food", 100, some TxType.expense⟩,
           ⟨2, 60, Segment.daily, "Shopping", "Shopping", 100, some TxType.income⟩]⟩ 1000 = [] :=
  getCategoryBreakdown_nonpos_total _ _
    (by
      have hwin : dailyWindow
          ⟨0, 0, 0,
            [⟨1, 50, Segment.daily, "In Food", "In Food", 100, some TxType.expense⟩,
             ⟨2, 60, Segment.daily, "Shopping", "Shopping", 100, some TxType.income⟩]⟩ 1000 =
          [⟨1, 50, Segment.daily, "In Food", "In Food", 100, some TxType.expense⟩,
           ⟨2, 60, Segment.daily, "Shopping", "Shopping", 100, some TxType.income⟩] := by
        norm_num [dailyWindow]
      rw [accumulateCats_eq, hwin]
      simp [catSum, multiplier]
      norm_num)

/-! ## C2 and C7: the sync codec -/

/-- Serializing one transaction and reading it back is the identity. -/
theorem txFromJson_txToJson (e : Transaction) : txFromJson (txToJson e) = some e := by
  obtain ⟨id, amount, seg, cat, lab, date, ty⟩ := e
  cases seg <;> rcases ty with _ | ty <;> first | rfl | (cases ty <;> rfl)

/-- Serializing a transaction list and reading it back is the identity. -/
theorem mapM_txFromJson_map_txToJson (l : List Transaction) :
    (l.map txToJson).mapM txFromJson = some l := by
  induction l with
  | nil => rfl
  | cons e es ih =>
    rw [List.map_cons, List.mapM_cons, txFromJson_txToJson, ih]
    rfl

/-- Serializing a ledger and reading it back through the validation gate is
the identity. -/
theorem jsonToLedger_ledgerToJson (d : Ledger) : jsonToLedger (ledgerToJson d) = some d := by
  have h1 : syncShape (ledgerToJson d) =
      some (d.bills, d.specials, d.daily, d.expenses.map txToJson) := rfl
  simp only [jsonToLedger, h1]
  rw [mapM_txFromJson_map_txToJson]
  rfl

/-- C2: decoding the sync token produced by encoding a ledger at time `t`
yields exactly the filtered ledger (round-trip law), and the filtered
ledger keeps the three budget knobs and exactly the bills transactions,
the specials transactions, and the daily transactions dated within
`t - 30` days. -/
theorem decode_encode_roundtrip {σ τ ω : Type} (jsonC : Codec Json σ) (uriC : Codec σ τ)
    (b64C : Codec τ ω) (L : Ledger) (now : ℚ) :
    decodeSyncToken jsonC uriC b64C (encodeSyncToken jsonC uriC b64C L now) =
      some (getFilteredDataForSync L now) ∧
    getFilteredDataForSync L now =
      { bills := L.bills, specials := L.specials, daily := L.daily
        expenses := L.expenses.filter fun e =>
          decide (e.segment = Segment.bills) || decide (e.segment = Segment.specials) ||
          (decide (e.segment = Segment.daily) &&
            decide (now - 30 * 24 * 60 * 60 * 1000 ≤ e.date)) } := by
  constructor
  · simp [decodeSyncToken, encodeSyncToken, b64C.dec_enc, uriC.dec_enc, jsonC.dec_enc,
      jsonToLedger_ledgerToJson]
  · simp only [getFilteredDataForSync]
    congr 1
    refine List.filter_congr fun e _ => ?_
    cases e.segment <;> rfl

/-- Witness for C2 at the identity transport stages and a concrete ledger
holding one bills transaction, one specials transaction, one recent daily
transaction and one stale daily transaction. -/
theorem decode_encode_roundtrip_witness :
    decodeSyncToken (idCodec Json) (idCodec Json) (idCodec Json)
        (encodeSyncToken (idCodec Json) (idCodec Json) (idCodec Json)
          ⟨7, 8, 9,
            [⟨1, 50, Segment.bills, "bills", "rent", 100, some TxType.expense⟩,
             ⟨2, 1200, Segment.specials, "specials", "travel", 200, some TxType.expense⟩,
             ⟨3, 15, Segment.daily, "In Food", "In Food", 2600000000, some TxType.expense⟩,
             ⟨4, 5, Segment.daily, "Others", "Others", 0, none⟩]⟩ 2600000000) =
      some (getFilteredDataForSync
        ⟨7, 8, 9,
          [⟨1, 50, Segment.bills, "bills", "rent", 100, some TxType.expense⟩,
           ⟨2, 1200, Segment.specials, "specials", "travel", 200, some TxType.expense⟩,
           ⟨3, 15, Segment.daily, "In Food", "In Food", 2600000000, some TxType.expense⟩,
           ⟨4, 5, Segment.daily, "Others", "Others", 0, none⟩]⟩ 2600000000) :=
  (decode_encode_roundtrip _ _ _ _ _).1

/-- A parsed JSON value that fails the validation gate is never turned into
a ledger. -/
theorem jsonToLedger_eq_none_of_validateShape_false {j : Json}
    (h : validateShape j = false) : jsonToLedger j = none := by
  rw [jsonToLedger]
  rcases hsy : syncShape j with _ | v
  · rfl
  · rw [validateShape, hsy] at h
    exact absurd h (by simp)

/-- C7: decoding a malformed sync token — one on which a transport stage
fails (`atob`, `decodeURIComponent` or `JSON.parse` throwing) or whose
parsed value fails the numeric-knobs-and-expense-sequence validation
gate — reports the failure and leaves the existing local ledger completely
unchanged; it never replaces the ledger. -/
theorem importFromURLHash_failure {σ τ ω : Type} (jsonC : Codec Json σ) (uriC : Codec σ τ)
    (b64C : Codec τ ω) (w : ω) (data : Ledger) (confirmMerge : Bool)
    (h : (((b64C.dec w).bind fun s => uriC.dec s).bind fun t => jsonC.dec t) = none ∨
      ∃ j, (((b64C.dec w).bind fun s => uriC.dec s).bind fun t => jsonC.dec t) = some j ∧
        validateShape j = false) :
    importFromURLHash jsonC uriC b64C (some w) data confirmMerge =
      (data, ImportOutcome.importFailed) := by
  have hdec : decodeSyncToken jsonC uriC b64C w = none := by
    rcases h with h | ⟨j, hj, hv⟩
    · rw [decodeSyncToken, h]
      rfl
    · rw [decodeSyncToken, hj, Option.some_bind]
      exact jsonToLedger_eq_none_of_validateShape_false hv
  rw [importFromURLHash, hdec]

/-- Witness for C7: the token whose interchange text parses to JSON `null`
fails the validation gate, and the import leaves the concrete local ledger
untouched. -/
theorem importFromURLHash_failure_witness :
    importFromURLHash (idCodec Json) (idCodec Json) (idCodec Json) (some Json.null)
        ⟨4, 5, 6, [⟨1, 50, Segment.bills, "bills", "rent", 100, some TxType.expense⟩]⟩ true =
      (⟨4, 5, 6, [⟨1, 50, Segment.bills, "bills", "rent", 100, some TxType.expense⟩]⟩,
        ImportOutcome.importFailed) :=
  importFromURLHash_failure _ _ _ _ _ _ (Or.inr ⟨Json.null, rfl, rfl⟩)
